import Mathlib

/-!
Verification of FTL (Pi-hole daemon) against its natural-language
specification.  The definitions below are shallow embeddings of the C
source files: `src/api/auth.c` (session authentication), `src/gc.c`
(rate limiting and garbage collection), `src/api/queries.c`
(the paginated query-log endpoint) and `parser.c` (log ingestion).
-/

set_option maxHeartbeats 1000000

/-! ## Session table and authentication (src/api/auth.c) -/

/-- A session slot, mirroring `struct session` in `auth.c`
(fields `used`, `app`, `tls{login, mixed}`, `login_at`, `valid_until`,
`sid`, `csrf`, `remote_addr`, `user_agent`). -/
structure Session where
  used : Bool
  app : Bool
  tlsLogin : Bool
  tlsMixed : Bool
  login_at : Int
  valid_until : Int
  sid : String
  csrf : String
  remote_addr : String
  user_agent : String
deriving DecidableEq

/-- The parts of `struct ftl_conn` that `check_client_auth` inspects:
the remote address, the TLS flag, the SID as it can be supplied through
the form/JSON payload, the `sid`/`X-FTL-SID` headers or the `sid`
cookie, and the `X-CSRF-TOKEN` header. -/
structure AuthRequest where
  remote_addr : String
  is_ssl : Bool
  payload_sid : Option String
  header_sid : Option String
  cookie_sid : Option String
  csrf_header : Option String
deriving DecidableEq

/-- The configuration items read by `check_client_auth`:
`webserver.api.localAPIauth`, `webserver.api.pwhash` and
`webserver.session.timeout`. -/
structure AuthConfig where
  localAPIauth : Bool
  pwhash : String
  sessionTimeout : Nat
deriving DecidableEq

/-- Modelled from the spec: the special verdict `API_AUTH_UNAUTHORIZED`
(`api.h` is not under `src/`); §4.7 calls it a non-slot verdict, and the
code compares slot ids with `user_id > API_AUTH_UNAUTHORIZED`, so it is
the negative sentinel `-1`. -/
def API_AUTH_UNAUTHORIZED : Int := -1

/-- Modelled from the spec: the special verdict `API_AUTH_LOCALHOST`
(`api.h` is not under `src/`), a negative non-slot sentinel distinct
from `API_AUTH_UNAUTHORIZED`. -/
def API_AUTH_LOCALHOST : Int := -2

/-- Modelled from the spec: the special verdict `API_AUTH_EMPTYPASS`
(`api.h` is not under `src/`), a negative non-slot sentinel distinct
from the other two. -/
def API_AUTH_EMPTYPASS : Int := -3

/-- `is_local_api_user` from `auth.c`: the request comes from
`127.0.0.1` or `::1`. -/
def is_local_api_user (remote_addr : String) : Bool :=
  remote_addr == "127.0.0.1" || remote_addr == "::1"

/-- SID extraction order of `check_client_auth`: form/JSON payload
first, then the `sid`/`X-FTL-SID` headers, then the `sid` cookie.
Returns the SID together with the `cookie_auth` flag. -/
def extract_sid (req : AuthRequest) : Option (String × Bool) :=
  match req.payload_sid with
  | some s => some (s, false)
  | none =>
    match req.header_sid with
    | some s => some (s, false)
    | none =>
      match req.cookie_sid with
      | some s => some (s, true)
      | none => none

/-- The per-slot test of the lookup loop in `check_client_auth`:
`used && valid_until >= now && remote_addr == request && sid == sid`. -/
def session_matches (s : Session) (now : Int) (remote_addr sid : String) : Bool :=
  s.used && decide (s.valid_until ≥ now) &&
    s.remote_addr == remote_addr && s.sid == sid

/-- Index of the first session slot passing `session_matches`
(the `for` loop over `auth_data` in `check_client_auth`). -/
def find_session (auth_data : List Session) (now : Int) (remote_addr sid : String) :
    Option Nat :=
  match auth_data with
  | [] => none
  | s :: rest =>
    if session_matches s now remote_addr sid then some 0
    else (find_session rest now remote_addr sid).map (· + 1)

/-- The success-path update of `check_client_auth`: slide `valid_until`
to `now + sessionTimeout` and accumulate
`tls.mixed |= (is_ssl != tls.login)`. -/
def slide_session (cfg : AuthConfig) (req : AuthRequest) (now : Int) (s : Session) :
    Session :=
  { s with valid_until := now + (cfg.sessionTimeout : Int),
           tlsMixed := s.tlsMixed || (req.is_ssl != s.tlsLogin) }

/-- `check_client_auth` from `auth.c`: returns the verdict (a slot id
`≥ 0` or a negative sentinel) together with the updated session table. -/
def check_client_auth (cfg : AuthConfig) (auth_data : List Session)
    (req : AuthRequest) (is_api : Bool) (now : Int) : Int × List Session :=
  if ¬cfg.localAPIauth ∧ is_local_api_user req.remote_addr then
    (API_AUTH_LOCALHOST, auth_data)
  else if cfg.pwhash = "" then
    (API_AUTH_EMPTYPASS, auth_data)
  else
    match extract_sid req with
    | none => (API_AUTH_UNAUTHORIZED, auth_data)
    | some (sid, cookie_auth) =>
      if (cookie_auth && is_api) ∧ req.csrf_header = none then
        (API_AUTH_UNAUTHORIZED, auth_data)
      else
        match find_session auth_data now req.remote_addr sid with
        | none => (API_AUTH_UNAUTHORIZED, auth_data)
        | some i =>
          match auth_data.get? i with
          | none => (API_AUTH_UNAUTHORIZED, auth_data)
          | some s =>
            if (cookie_auth && is_api) ∧ ¬(req.csrf_header = some s.csrf) then
              (API_AUTH_UNAUTHORIZED, auth_data)
            else
              (Int.ofNat i, auth_data.set i (slide_session cfg req now s))

/-! ## Log ingestion counters (parser.c) -/

/-- The counters of `parser.c` touched by the query branch of
`process_pihole_log` (a field per global counter that the
status switch can increment). -/
structure ParserCounters where
  queries : Nat
  unknown : Nat
  blocked : Nat
  cached : Nat
  wildcardblocked : Nat
deriving DecidableEq

/-- The all-zero counters produced by `pihole_log_flushed`
(`memset(&counters, 0, sizeof(countersStruct))`). -/
def initialCounters : ParserCounters :=
  { queries := 0, unknown := 0, blocked := 0, cached := 0, wildcardblocked := 0 }

/-- The classification outcome of the 200-line lookahead in
`process_pihole_log`: `status` stays `0` when nothing matches, and is
set to `1` (gravity.list), `2` (forwarded), `3` (cached/local) or
`4` (wildcard/config) by the matching branch. -/
inductive LogAction where
  | unknown
  | gravity
  | forwarded
  | cached
  | wildcard
deriving DecidableEq

/-- The per-query counter updates of `process_pihole_log`
(lines 315-337): `counters.queries++` followed by the
`switch(status)` that increments at most one status counter
(`case 2` — forwarded — increments none). -/
def process_query (c : ParserCounters) (status : LogAction) : ParserCounters :=
  let c := { c with queries := c.queries + 1 }
  match status with
  | .unknown => { c with unknown := c.unknown + 1 }
  | .gravity => { c with blocked := c.blocked + 1 }
  | .forwarded => c
  | .cached => { c with cached := c.cached + 1 }
  | .wildcard => { c with wildcardblocked := c.wildcardblocked + 1 }

/-- Ingesting a sequence of classified query lines, starting from the
flushed (all-zero) counters. -/
def ingest (events : List LogAction) : ParserCounters :=
  events.foldl process_query initialCounters

/-- Sum of the per-status query counters maintained by `parser.c`. -/
def statusSum (c : ParserCounters) : Nat :=
  c.unknown + c.blocked + c.cached + c.wildcardblocked

/-! ## Rate limiting (src/gc.c) -/

/-- The configuration items read by the rate-limiting code:
`dns.rateLimit.count` and `dns.rateLimit.interval` (both unsigned). -/
structure RateLimitConfig where
  count : Nat
  interval : Nat
deriving DecidableEq

/-- `get_rate_limit_turnaround` from `gc.c`:
`how_often = rate_limit_count / count` (unsigned C division, i.e.
floor) and the result is `interval * how_often - (now -
lastRateLimitCleaner)` as a signed `time_t`. -/
def get_rate_limit_turnaround (cfg : RateLimitConfig)
    (lastRateLimitCleaner now : Int) (rate_limit_count : Nat) : Int :=
  let how_often := rate_limit_count / cfg.count
  (cfg.interval : Int) * (how_often : Int) - (now - lastRateLimitCleaner)

/-- The turnaround formula as the spec words it, with a ceiling
division instead of the C integer division; kept separate so it can be
compared against `get_rate_limit_turnaround`. -/
def spec_turnaround_ceil (cfg : RateLimitConfig)
    (lastRateLimitCleaner now : Int) (rate_limit_count : Nat) : Int :=
  let how_often := (rate_limit_count + cfg.count - 1) / cfg.count
  (cfg.interval : Int) * (how_often : Int) - (now - lastRateLimitCleaner)

/-- The per-client rate-limiting state (`client->rate_limit` and
`client->flags.rate_limited`). -/
structure ClientRL where
  rate_limit : Nat
  rate_limited : Bool
deriving DecidableEq

/-- The body of the per-client loop of `reset_rate_limiting`: a client
whose sticky flag is set keeps it iff `rate_limit > count`, and the
counter is reset to `0` in every case. -/
def reset_rate_limiting_client (cfg : RateLimitConfig) (cl : ClientRL) : ClientRL :=
  let cl :=
    if cl.rate_limited then
      if cl.rate_limit > cfg.count then cl
      else { cl with rate_limited := false }
    else cl
  { cl with rate_limit := 0 }

/-- `reset_rate_limiting` from `gc.c`: the loop over all clients. -/
def reset_rate_limiting (cfg : RateLimitConfig) (clients : List ClientRL) :
    List ClientRL :=
  clients.map (reset_rate_limiting_client cfg)

/-- The trigger condition of the rate-limit housekeeping in
`GC_thread`: `interval > 0` and
`(unsigned int)(now - lastRateLimitCleaner) >= interval`
(the difference is cast to a 32-bit unsigned integer). -/
def rate_limit_reset_due (cfg : RateLimitConfig)
    (now lastRateLimitCleaner : Int) : Bool :=
  decide (0 < cfg.interval) &&
    decide (((now - lastRateLimitCleaner) % (2 ^ 32 : Int)).toNat ≥ cfg.interval)

/-- One rate-limit housekeeping step of `GC_thread` (lines 325-332):
when due, remember `now` as the new `lastRateLimitCleaner` and run
`reset_rate_limiting`; otherwise leave everything unchanged. -/
def gc_rate_limit_tick (cfg : RateLimitConfig) (now lastRateLimitCleaner : Int)
    (clients : List ClientRL) : Int × List ClientRL :=
  if rate_limit_reset_due cfg now lastRateLimitCleaner then
    (now, reset_rate_limiting cfg clients)
  else
    (lastRateLimitCleaner, clients)

/-! ## Garbage collection of old queries (src/gc.c, runGC) -/

/-- The query status enumeration (`enum query_status`) as used by the
`switch` in `runGC`. -/
inductive QStatus where
  | unknown
  | gravity
  | forwarded
  | cache
  | cache_stale
  | regex
  | denylist
  | external_blocked_ip
  | external_blocked_null
  | external_blocked_nxra
  | gravity_cname
  | regex_cname
  | denylist_cname
  | retried
  | retried_dnssec
  | in_progress
  | dbbusy
  | special_domain
deriving DecidableEq

/-- The statuses grouped by the blocked arm of the `switch` in `runGC`
(the cases that decrement `overTime[...].blocked`,
`domain->blockedcount` and the client blocked count). -/
def is_blocked_status : QStatus → Bool
  | .gravity | .denylist | .regex
  | .external_blocked_ip | .external_blocked_nxra | .external_blocked_null
  | .gravity_cname | .regex_cname | .denylist_cname
  | .dbbusy | .special_domain => true
  | _ => false

/-- The fields of a `queriesData` record that `runGC` reads. -/
structure GCQuery where
  timestamp : Int
  type : Nat
  status : QStatus
  reply : Nat
  domainID : Nat
  clientID : Nat
deriving DecidableEq

/-- The per-client aggregate data touched by `runGC` via
`change_clientcount(client, total, blocked, overTimeIdx, overTimeMod)`. -/
structure GCClient where
  count : Int
  blockedcount : Int
  overTime : Int → Int

/-- The per-domain aggregate data touched by `runGC`. -/
structure GCDomain where
  count : Int
  blockedcount : Int
deriving DecidableEq

/-- The shared-memory state read and written by `runGC`: the query
ring in id order, the global counters and the aggregate tables. -/
structure GCstate where
  queries : List GCQuery
  countersQueries : Int
  statusCount : QStatus → Int
  replyCount : Nat → Int
  typeCount : Nat → Int
  overTimeTotal : Int → Int
  overTimeBlocked : Int → Int
  clients : List GCClient
  domains : List GCDomain

/-- The configuration read by `runGC`: `webserver.api.maxHistory`. -/
structure GCConfig where
  maxHistory : Nat
deriving DecidableEq

/-- `GCinterval` (10 minutes); the macro lives in `gc.h`, which is not
under `src/`, and §4.6 of the spec gives the 10-minute default. -/
def GCinterval : Int := 600

/-- Modelled from the spec: `GCdelay` (`gc.h` is not under `src/`);
§4.6 computes `mintime = align(now - maxHistory, GCinterval)` with no
extra delay term, so the delay is `0`. -/
def GCdelay : Int := 0

/-- Modelled from the spec: `getOverTimeID` (`overTime.c` is not under
`src/`); §3 places a query in the overtime bucket at
`floor(timestamp/600)`. -/
def getOverTimeID (timestamp : Int) : Int :=
  Int.fdiv timestamp 600

/-- Pointwise update of a counter map at one index. -/
def bumpAt (f : Int → Int) (i : Int) (d : Int) : Int → Int :=
  fun j => if j = i then f j + d else f j

/-- Pointwise update of a counter map indexed by naturals. -/
def bumpAtNat (f : Nat → Int) (i : Nat) (d : Int) : Nat → Int :=
  fun j => if j = i then f j + d else f j

/-- Pointwise update of a status-indexed counter map. -/
def bumpAtStatus (f : QStatus → Int) (i : QStatus) (d : Int) : QStatus → Int :=
  fun j => if j = i then f j + d else f j

/-- In-place update of the `n`-th record of a table; out-of-range
indices leave the table unchanged (the `getClient`/`getDomain` NULL
guard in `runGC`). -/
def updateNth {α : Type} (l : List α) (n : Nat) (f : α → α) : List α :=
  match l, n with
  | [], _ => []
  | x :: rest, 0 => f x :: rest
  | x :: rest, n + 1 => x :: updateNth rest n f

/-- Modelled from the spec: `change_clientcount` (`datastructure.c` is
not under `src/`); per §3 and its uses in `runGC` it adds the given
deltas to `client->count`, `client->blockedcount` and, when an overtime
index is given, to the client's own overtime slot. -/
def change_clientcount (cl : GCClient) (total blocked : Int)
    (overTimeIdx : Option Int) (overTimeMod : Int) : GCClient :=
  { cl with count := cl.count + total,
            blockedcount := cl.blockedcount + blocked,
            overTime :=
              match overTimeIdx with
              | some idx => bumpAt cl.overTime idx overTimeMod
              | none => cl.overTime }

/-- The aggregate tear-down that `runGC` performs for one evicted
query: decrement the overtime bucket, the client and domain aggregates,
the blocked counters for blocked statuses, the reply and type counters,
and finally the status counters via the
`counters->status[QUERY_UNKNOWN]--` / `query_set_status(query,
QUERY_UNKNOWN)` pair.  `query_set_status` is modelled from the spec
(`datastructure.c` is not under `src/`): §4.3's `change_query_status`
decrements `counters.status[old]` and increments `counters.status[new]`;
its blocked-aggregate step is performed explicitly by the `switch` here
and §4.6 requires the tear-down to stay counter-neutral, so only the
status swap is modelled. -/
def evict_query (st : GCstate) (q : GCQuery) : GCstate :=
  let tid := getOverTimeID q.timestamp
  let st1 := { st with overTimeTotal := bumpAt st.overTimeTotal tid (-1) }
  let st2 := { st1 with
               clients := updateNth st1.clients q.clientID
                 (fun cl => change_clientcount cl (-1) 0 (some tid) (-1)) }
  let st3 := { st2 with
               domains := updateNth st2.domains q.domainID
                 (fun d => { d with count := d.count - 1 }) }
  let st4 :=
    if is_blocked_status q.status then
      { st3 with
        overTimeBlocked := bumpAt st3.overTimeBlocked tid (-1),
        domains := updateNth st3.domains q.domainID
          (fun d => { d with blockedcount := d.blockedcount - 1 }),
        clients := updateNth st3.clients q.clientID
          (fun cl => change_clientcount cl 0 (-1) none 0) }
    else st3
  let st5 := { st4 with replyCount := bumpAtNat st4.replyCount q.reply (-1) }
  let st6 := { st5 with typeCount := bumpAtNat st5.typeCount q.type (-1) }
  let st7 :=
    if q.status = QStatus.unknown then st6
    else { st6 with statusCount := bumpAtStatus st6.statusCount QStatus.unknown (-1) }
  { st7 with
    statusCount := bumpAtStatus (bumpAtStatus st7.statusCount q.status (-1)) QStatus.unknown 1 }

/-- The GC cutoff of a normal (non-flush) run:
`mintime = now - GCdelay - maxHistory` aligned down to the `GCinterval`
boundary via C's truncating `%` on `time_t`. -/
def gc_mintime (cfg : GCConfig) (now : Int) : Int :=
  let m := now - GCdelay - (cfg.maxHistory : Int)
  m - Int.tmod m GCinterval

/-- `runGC` from `gc.c` (the shared-memory part; the SQL deletion and
the lock handling have no effect on this state): compute `mintime`,
walk the query ring in id order while `timestamp <= mintime` tearing
down aggregates and overwriting each walked entry's status with
`UNKNOWN`, then compact the ring with a `memmove` whose source is
`getQuery(removed - 1)` and whose size is
`(counters->queries - removed)` records, and decrement the global
query counter by the number of removed queries. -/
def runGC (cfg : GCConfig) (st : GCstate) (now : Int) (flush : Bool) : GCstate :=
  let mintime := if flush then now else gc_mintime cfg now
  let scanned := st.queries.take st.countersQueries.toNat
  let evicted := scanned.takeWhile (fun q => decide (q.timestamp ≤ mintime))
  let removed := evicted.length
  let st1 := evicted.foldl evict_query st
  let arr := evicted.map (fun q => { q with status := QStatus.unknown }) ++
             st.queries.drop removed
  let arr2 :=
    if 0 < removed then
      (arr.drop (removed - 1)).take (st.countersQueries.toNat - removed)
    else arr
  { st1 with
    queries := arr2,
    countersQueries :=
      if 0 < removed then st1.countersQueries - (removed : Int)
      else st1.countersQueries }

/-! ## Paginated query log (src/api/queries.c, api_queries) -/

/-- The request parameters of `GET /api/queries` that drive pagination:
the optional `cursor`, the `start` offset, the requested `length` and
the DataTables `draw` counter. -/
structure QueriesRequest where
  cursor : Option Nat
  start : Nat
  length : Int
  draw : Int
deriving DecidableEq

/-- The accumulator of the row-streaming loop in `api_queries`:
`added`, `records`, `firstID` (initially `-1`) and the emitted rows. -/
structure RowLoop where
  added : Nat
  records : Nat
  firstID : Int
  out : List Nat
deriving DecidableEq

/-- The initial accumulator of the row loop. -/
def initRowLoop : RowLoop :=
  { added := 0, records := 0, firstID := -1, out := [] }

/-- One iteration of the `sqlite3_step` loop of `api_queries` on a row
with the given id: remember `firstID`, count the record, then either
skip (id beyond the cursor, before `start`, or `length` already
satisfied when `length > 0`) or emit the row. -/
def row_step (cursor : Nat) (start : Nat) (length : Int)
    (st : RowLoop) (id : Nat) : RowLoop :=
  let firstID := if st.firstID = -1 then (id : Int) else st.firstID
  let records := st.records + 1
  if id > cursor then
    { st with firstID := firstID, records := records }
  else if 0 < start ∧ records ≤ start then
    { st with firstID := firstID, records := records }
  else if 0 < length ∧ length ≤ (st.added : Int) then
    { st with firstID := firstID, records := records }
  else
    { added := st.added + 1, records := records, firstID := firstID,
      out := st.out ++ [id] }

/-- The full row loop over the rows returned by the SQL statement
(in the `ORDER BY id DESC` order the statement produces). -/
def run_rows (cursor : Nat) (start : Nat) (length : Int)
    (rows : List Nat) : RowLoop :=
  rows.foldl (row_step cursor start length) initRowLoop

/-- Outcome of `api_queries` after authentication: either the JSON
object (`queries`, `cursor`, `recordsTotal`, `recordsFiltered`,
`draw`) or the HTTP 400 error for an invalid cursor. -/
inductive QueriesResult where
  | ok (queries : List Nat) (cursor : Int) (recordsTotal : Nat)
       (recordsFiltered : Nat) (draw : Int)
  | badRequest
deriving DecidableEq

/-- The emitted rows of a `QueriesResult` (`[]` for an error reply). -/
def QueriesResult.rows : QueriesResult → List Nat
  | .ok qs _ _ _ _ => qs
  | .badRequest => []

/-- The `cursor` field of a `QueriesResult` (`0` for an error reply,
which has no such field). -/
def QueriesResult.cursorField : QueriesResult → Int
  | .ok _ c _ _ _ => c
  | .badRequest => 0

/-- The `draw` field of a `QueriesResult` (`0` for an error reply,
which has no such field). -/
def QueriesResult.drawField : QueriesResult → Int
  | .ok _ _ _ _ d => d
  | .badRequest => 0

/-- Whether a `QueriesResult` is the HTTP 400 error. -/
def QueriesResult.isBadRequest : QueriesResult → Bool
  | .ok _ _ _ _ _ => false
  | .badRequest => true

/-- The pagination core of `api_queries` from `queries.c`: the cursor
starts at `largest_db_index` and is replaced by a user-supplied cursor
only when `cursor <= largest_db_index` (otherwise HTTP 400); the rows
are then streamed through `row_step`, and the response repeats the
request cursor when one was set and `firstID` otherwise.
`rows` is the id column of the filtered statement in `ORDER BY id
DESC` order; `recordsTotal` abstracts `mem_dbnum`/`disk_dbnum`. -/
def api_queries (largest_db_index : Nat) (recordsTotal : Nat)
    (req : QueriesRequest) (rows : List Nat) : QueriesResult :=
  match req.cursor with
  | some unum =>
    if unum ≤ largest_db_index then
      let loop := run_rows unum req.start req.length rows
      .ok loop.out (unum : Int) recordsTotal loop.records req.draw
    else
      .badRequest
  | none =>
    let loop := run_rows largest_db_index req.start req.length rows
    .ok loop.out loop.firstID recordsTotal loop.records req.draw

/-! ## Login logging (src/api/auth.c, api_auth) -/

/-- A log line as produced by the logging calls in `api_auth`,
tagged with its level. -/
inductive LogEvent where
  | info (msg : String)
  | debug (msg : String)
deriving DecidableEq

/-- `enum password_result` from `config/password.h` as used by
`api_auth`. -/
inductive PasswordResult where
  | correct
  | app_correct
  | incorrect
  | rate_limited
deriving DecidableEq

/-- The password-verification tail of `api_auth` (`auth.c` lines
530-540), reached by every POST login attempt that survives the early
exits with a supplied password: it first emits
`log_info("Password: \x22%s\x22", password)` and only then verifies
the password (`verify_login` is kept abstract, as `password.c` is not
under `src/`); an incorrect result adds the debug line that also
embeds the password.  Returns the verification result together with
the emitted log lines in order. -/
def api_auth_verify (empty_password : Bool)
    (verify_login : String → PasswordResult) (password : String) :
    PasswordResult × List LogEvent :=
  let infoline := LogEvent.info ("Password: \x22" ++ password ++ "\x22")
  let result :=
    if empty_password ∧ password = "" then PasswordResult.correct
    else verify_login password
  let debuglines :=
    if result = PasswordResult.correct ∨ result = PasswordResult.app_correct then
      []
    else if result = PasswordResult.rate_limited then
      []
    else
      [LogEvent.debug ("API: Password incorrect: \x27" ++ password ++ "\x27")]
  (result, infoline :: debuglines)

/-! ## Concrete data used to exercise the definitions -/

/-- A configuration with authentication enabled. -/
def demoAuthConfig : AuthConfig :=
  { localAPIauth := true, pwhash := "hash", sessionTimeout := 300 }

/-- A populated, unexpired session slot. -/
def demoSession : Session :=
  { used := true, app := false, tlsLogin := false, tlsMixed := false,
    login_at := 0, valid_until := 1000, sid := "abc", csrf := "tok",
    remote_addr := "10.0.0.5", user_agent := "ua" }

/-- A request presenting the SID through the `sid` header. -/
def demoHeaderReq : AuthRequest :=
  { remote_addr := "10.0.0.5", is_ssl := false, payload_sid := none,
    header_sid := some "abc", cookie_sid := none, csrf_header := none }

/-- A request presenting the SID through the cookie, with a free choice
of `X-CSRF-TOKEN` header. -/
def demoCookieReq (csrf : Option String) : AuthRequest :=
  { remote_addr := "10.0.0.5", is_ssl := false, payload_sid := none,
    header_sid := none, cookie_sid := some "abc", csrf_header := csrf }

/-- The rate-limiting configuration of the spec scenario:
`count = 5`, `interval = 60`. -/
def demoRL : RateLimitConfig := { count := 5, interval := 60 }

/-- The GC configuration with the default 24-hour `maxHistory`. -/
def demoGCConfig : GCConfig := { maxHistory := 86400 }

/-- A query old enough to be garbage collected at `now = 100000`. -/
def gcOldQuery : GCQuery :=
  { timestamp := 1000, type := 0, status := QStatus.forwarded, reply := 0,
    domainID := 0, clientID := 0 }

/-- A recent query that must survive garbage collection at
`now = 100000`. -/
def gcNewQuery : GCQuery :=
  { timestamp := 50000, type := 0, status := QStatus.cache, reply := 0,
    domainID := 0, clientID := 0 }

/-- A consistent shared-memory state holding `gcOldQuery` and
`gcNewQuery`. -/
def gcDemoState : GCstate :=
  { queries := [gcOldQuery, gcNewQuery],
    countersQueries := 2,
    statusCount := fun s =>
      if s = QStatus.forwarded then 1 else if s = QStatus.cache then 1 else 0,
    replyCount := fun r => if r = 0 then 2 else 0,
    typeCount := fun t => if t = 0 then 2 else 0,
    overTimeTotal := fun t =>
      if t = getOverTimeID 1000 then 1
      else if t = getOverTimeID 50000 then 1 else 0,
    overTimeBlocked := fun _ => 0,
    clients := [{ count := 2, blockedcount := 0,
                  overTime := fun t =>
                    if t = getOverTimeID 1000 then 1
                    else if t = getOverTimeID 50000 then 1 else 0 }],
    domains := [{ count := 2, blockedcount := 0 }] }

/-- A shared-memory state whose only query still has status `UNKNOWN`. -/
def gcUnknownState : GCstate :=
  { queries := [{ gcOldQuery with status := QStatus.unknown }],
    countersQueries := 1,
    statusCount := fun s => if s = QStatus.unknown then 1 else 0,
    replyCount := fun r => if r = 0 then 1 else 0,
    typeCount := fun t => if t = 0 then 1 else 0,
    overTimeTotal := fun t => if t = getOverTimeID 1000 then 1 else 0,
    overTimeBlocked := fun _ => 0,
    clients := [{ count := 1, blockedcount := 0,
                  overTime := fun t => if t = getOverTimeID 1000 then 1 else 0 }],
    domains := [{ count := 1, blockedcount := 0 }] }

/-- The query-log request of the `length = 0` boundary scenario. -/
def lenZeroReq : QueriesRequest :=
  { cursor := none, start := 0, length := 0, draw := 7 }

/-- The query-log request of the response-cursor scenario: no request
cursor, `start = 1`. -/
def startOneReq : QueriesRequest :=
  { cursor := none, start := 1, length := 100, draw := 1 }

/-- The rows that the pagination loop of `api_queries` would emit when
streaming everything: the rows whose id is at most the cursor, skipping
the first `start` records (`k0` is the number of records already
counted). -/
def emitted_from (cursor start k0 : Nat) (rows : List Nat) : List Nat :=
  match rows with
  | [] => []
  | id :: rest =>
    (if id ≤ cursor ∧ start ≤ k0 then [id] else []) ++
      emitted_from cursor start (k0 + 1) rest

/-- Three clients: one still over the threshold, one under it with the
flag set, one unflagged. -/
def demoClients : List ClientRL :=
  [{ rate_limit := 7, rate_limited := true },
   { rate_limit := 3, rate_limited := true },
   { rate_limit := 2, rate_limited := false }]

/-! ## Helper lemmas -/

/-- Setting a slot that exists makes `get?` at that index return the
new value. -/
theorem get?_set_self {α : Type} (l : List α) (i : Nat) (a s : α)
    (h : l.get? i = some s) : (l.set i a).get? i = some a := by
  induction l generalizing i with
  | nil => simp at h
  | cons x rest ih =>
    cases i with
    | zero => rfl
    | succ j => exact ih j h

/-- `find_session` returns the index of a slot passing
`session_matches`. -/
theorem find_session_spec (l : List Session) (now : Int) (addr sid : String)
    (i : Nat) (h : find_session l now addr sid = some i) :
    ∃ s, l.get? i = some s ∧ session_matches s now addr sid = true := by
  induction l generalizing i with
  | nil => simp [find_session] at h
  | cons s rest ih =>
    by_cases hm : session_matches s now addr sid = true
    · simp [find_session, hm] at h
      exact h ▸ ⟨s, rfl, hm⟩
    · simp [find_session, hm] at h
      obtain ⟨j, hj, hji⟩ := h
      obtain ⟨t, ht, hmt⟩ := ih j hj
      exact hji ▸ ⟨t, ht, hmt⟩

/-- Unpacking `session_matches`. -/
theorem session_matches_iff (s : Session) (now : Int) (addr sid : String) :
    session_matches s now addr sid = true ↔
      s.used = true ∧ now ≤ s.valid_until ∧ s.remote_addr = addr ∧ s.sid = sid := by
  simp [session_matches, and_assoc, ge_iff_le]

/-! ## C1: a successful `check_client_auth` -/

/-- `API_AUTH_LOCALHOST` is never a slot id. -/
theorem localhost_ne_ofNat (uid : Nat) : API_AUTH_LOCALHOST ≠ Int.ofNat uid := by
  rw [show API_AUTH_LOCALHOST = -2 from rfl, Int.ofNat_eq_coe]
  omega

/-- `API_AUTH_EMPTYPASS` is never a slot id. -/
theorem emptypass_ne_ofNat (uid : Nat) : API_AUTH_EMPTYPASS ≠ Int.ofNat uid := by
  rw [show API_AUTH_EMPTYPASS = -3 from rfl, Int.ofNat_eq_coe]
  omega

/-- `API_AUTH_UNAUTHORIZED` is never a slot id. -/
theorem unauthorized_ne_ofNat (uid : Nat) :
    API_AUTH_UNAUTHORIZED ≠ Int.ofNat uid := by
  rw [show API_AUTH_UNAUTHORIZED = -1 from rfl, Int.ofNat_eq_coe]
  omega

/-- C1: `check_client_auth` returns a non-negative slot id `uid` only
when slot `uid` is in use, `valid_until >= now`, its stored remote
address equals the request's, and its stored SID equals the SID the
request presented; on every such success it slides the slot's
`valid_until` to `now + sessionTimeout`. -/
theorem check_client_auth_success (cfg : AuthConfig) (auth_data : List Session)
    (req : AuthRequest) (is_api : Bool) (now : Int) (uid : Nat)
    (data2 : List Session)
    (h : check_client_auth cfg auth_data req is_api now = (Int.ofNat uid, data2)) :
    ∃ s sid cookie_auth,
      auth_data.get? uid = some s ∧
      extract_sid req = some (sid, cookie_auth) ∧
      s.used = true ∧ now ≤ s.valid_until ∧
      s.remote_addr = req.remote_addr ∧ s.sid = sid ∧
      data2.get? uid = some (slide_session cfg req now s) ∧
      (slide_session cfg req now s).valid_until = now + (cfg.sessionTimeout : Int) := by
  unfold check_client_auth at h
  split at h
  · injection h with h1 h2
    exact absurd h1 (localhost_ne_ofNat uid)
  · split at h
    · injection h with h1 h2
      exact absurd h1 (emptypass_ne_ofNat uid)
    · split at h
      · injection h with h1 h2
        exact absurd h1 (unauthorized_ne_ofNat uid)
      · rename_i sid cookie_auth heq
        split at h
        · injection h with h1 h2
          exact absurd h1 (unauthorized_ne_ofNat uid)
        · split at h
          · injection h with h1 h2
            exact absurd h1 (unauthorized_ne_ofNat uid)
          · rename_i i hfind
            split at h
            · injection h with h1 h2
              exact absurd h1 (unauthorized_ne_ofNat uid)
            · rename_i s hget
              split at h
              · injection h with h1 h2
                exact absurd h1 (unauthorized_ne_ofNat uid)
              · injection h with h1 h2
                have h1n := Int.ofNat.inj h1
                subst h1n
                obtain ⟨t, ht, hmt⟩ := find_session_spec auth_data now
                  req.remote_addr sid i hfind
                rw [ht] at hget
                cases hget
                obtain ⟨hu, hv, ha, hs⟩ := (session_matches_iff _ _ _ _).mp hmt
                refine ⟨s, sid, cookie_auth, ht, heq, hu, hv, ha, hs, ?_, rfl⟩
                rw [← h2]
                exact get?_set_self auth_data i _ s ht

/-- Witness for C1: a concrete header-authenticated request hitting
slot 0. -/
theorem check_client_auth_success_witness :
    ∃ s sid cookie_auth,
      [demoSession].get? 0 = some s ∧
      extract_sid demoHeaderReq = some (sid, cookie_auth) ∧
      s.used = true ∧ (500 : Int) ≤ s.valid_until ∧
      s.remote_addr = demoHeaderReq.remote_addr ∧ s.sid = sid ∧
      [slide_session demoAuthConfig demoHeaderReq 500 demoSession].get? 0 =
        some (slide_session demoAuthConfig demoHeaderReq 500 s) ∧
      (slide_session demoAuthConfig demoHeaderReq 500 s).valid_until =
        500 + (demoAuthConfig.sessionTimeout : Int) :=
  check_client_auth_success demoAuthConfig [demoSession] demoHeaderReq true 500 0
    [slide_session demoAuthConfig demoHeaderReq 500 demoSession] (by decide)

/-! ## C2: CSRF requirement for cookie authentication -/

/-- C2: when the SID comes from a cookie and the request targets the
API, `check_client_auth` demands an `X-CSRF-TOKEN` header equal to the
session's stored token: an absent or mismatching header yields
`API_AUTH_UNAUTHORIZED`, while the matching token (on an otherwise
valid session) yields the slot id. -/
theorem check_client_auth_cookie_csrf (cfg : AuthConfig)
    (auth_data : List Session) (req : AuthRequest) (now : Int)
    (sid : String) (i : Nat) (s : Session)
    (hlocal : ¬(¬cfg.localAPIauth ∧ is_local_api_user req.remote_addr))
    (hpw : ¬(cfg.pwhash = ""))
    (hsid : extract_sid req = some (sid, true))
    (hfind : find_session auth_data now req.remote_addr sid = some i)
    (hget : auth_data.get? i = some s) :
    (req.csrf_header = none →
      (check_client_auth cfg auth_data req true now).1 = API_AUTH_UNAUTHORIZED) ∧
    (∀ c, req.csrf_header = some c → c ≠ s.csrf →
      (check_client_auth cfg auth_data req true now).1 = API_AUTH_UNAUTHORIZED) ∧
    (req.csrf_header = some s.csrf →
      (check_client_auth cfg auth_data req true now).1 = Int.ofNat i) := by
  unfold check_client_auth
  rw [if_neg hlocal, if_neg hpw, hsid]
  simp only [hfind, hget]
  refine ⟨?_, ?_, ?_⟩
  · intro hnone
    simp [hnone]
  · intro c hc hne
    simp [hc, hne]
  · intro hmatch
    simp [hmatch]

/-- Witness for C2: a concrete cookie-authenticated API request against
slot 0. -/
theorem check_client_auth_cookie_csrf_witness :
    ((demoCookieReq (some "tok")).csrf_header = none →
      (check_client_auth demoAuthConfig [demoSession]
        (demoCookieReq (some "tok")) true 500).1 = API_AUTH_UNAUTHORIZED) ∧
    (∀ c, (demoCookieReq (some "tok")).csrf_header = some c →
      c ≠ demoSession.csrf →
      (check_client_auth demoAuthConfig [demoSession]
        (demoCookieReq (some "tok")) true 500).1 = API_AUTH_UNAUTHORIZED) ∧
    ((demoCookieReq (some "tok")).csrf_header = some demoSession.csrf →
      (check_client_auth demoAuthConfig [demoSession]
        (demoCookieReq (some "tok")) true 500).1 = Int.ofNat 0) :=
  check_client_auth_cookie_csrf demoAuthConfig [demoSession]
    (demoCookieReq (some "tok")) 500 "abc" 0 demoSession
    (by decide) (by decide) (by decide) (by decide) rfl

/-! ## C3: the per-status counters of parser.c -/

/-- One ingestion step: the `queries` counter always advances, the
status sum advances except for a forwarded query. -/
theorem process_query_step (c : ParserCounters) (e : LogAction) :
    (process_query c e).queries = c.queries + 1 ∧
    statusSum (process_query c e) + (if e = LogAction.forwarded then 1 else 0) =
      statusSum c + 1 := by
  cases e <;> simp [process_query, statusSum] <;> omega

/-- Folding the ingestion over any event list relates the status sum,
the forwarded count and the query counter. -/
theorem foldl_process_query_sum (events : List LogAction) :
    ∀ c : ParserCounters,
      statusSum (events.foldl process_query c) +
        events.count LogAction.forwarded + c.queries =
      statusSum c + (events.foldl process_query c).queries := by
  induction events with
  | nil => intro c; simp
  | cons e rest ih =>
    intro c
    obtain ⟨hq, hs⟩ := process_query_step c e
    have h2 := ih (process_query c e)
    have hcnt : (e :: rest).count LogAction.forwarded =
        rest.count LogAction.forwarded +
          (if e = LogAction.forwarded then 1 else 0) := by
      rw [List.count_cons]
      by_cases he : e = LogAction.forwarded
      · subst he; simp
      · simp [he, Ne.symm he]
    rw [List.foldl_cons, hcnt]
    by_cases he : e = LogAction.forwarded
    · rw [if_pos he] at hs ⊢
      omega
    · rw [if_neg he] at hs ⊢
      omega

/-- Counterexample for C3 as stated: a single forwarded query advances
`counters.queries` but no per-status counter. -/
theorem ingest_status_sum_cex :
    statusSum (ingest [LogAction.forwarded]) ≠
      (ingest [LogAction.forwarded]).queries := by
  decide

/-- C3 (amended): after any sequence of ingested query events, the sum
of the per-status counters plus the number of forwarded queries — for
which `process_pihole_log` increments no status counter — equals
`counters.queries`; every non-forwarded admitted query is counted under
exactly one status. -/
theorem ingest_status_sum (events : List LogAction) :
    statusSum (ingest events) + events.count LogAction.forwarded =
      (ingest events).queries := by
  have := foldl_process_query_sum events initialCounters
  simpa [ingest, initialCounters, statusSum] using this

/-! ## C4: rate-limit turnaround -/

/-- Counterexample for C4 as stated: for a client just rate-limited
(`rate_limit_count = 6` with `count = 5`, `interval = 60`) at the start
of the window, the code returns `60` while the claimed ceiling formula
gives `120`. -/
theorem turnaround_cex :
    get_rate_limit_turnaround demoRL 0 0 6 = 60 ∧
    spec_turnaround_ceil demoRL 0 0 6 = 120 ∧
    get_rate_limit_turnaround demoRL 0 0 6 ≠ spec_turnaround_ceil demoRL 0 0 6 := by
  decide

/-- C4 (amended): `get_rate_limit_turnaround c` equals
`interval * floor(c / count) - (now - lastRateLimitCleaner)` (C's
truncating unsigned division, not a ceiling); in particular, for a
client just rate-limited (`c = 6`) within a fresh 60-second window with
`count = 5`, the result lies in `(0, 60]`. -/
theorem turnaround_floor_and_range (last now : Int)
    (h0 : 0 ≤ now - last) (h1 : now - last < 60) :
    (∀ (cfg : RateLimitConfig) (c : Nat),
      get_rate_limit_turnaround cfg last now c =
        (cfg.interval : Int) * ((c / cfg.count : Nat) : Int) - (now - last)) ∧
    0 < get_rate_limit_turnaround demoRL last now 6 ∧
    get_rate_limit_turnaround demoRL last now 6 ≤ 60 := by
  have he : get_rate_limit_turnaround demoRL last now 6 = 60 - (now - last) := by
    simp [get_rate_limit_turnaround, demoRL]
  refine ⟨fun cfg c => rfl, ?_, ?_⟩ <;> rw [he] <;> omega

/-- Witness for C4 at `last = 0`, `now = 30`. -/
theorem turnaround_floor_and_range_witness :
    (∀ (cfg : RateLimitConfig) (c : Nat),
      get_rate_limit_turnaround cfg 0 30 c =
        (cfg.interval : Int) * ((c / cfg.count : Nat) : Int) - (30 - 0)) ∧
    0 < get_rate_limit_turnaround demoRL 0 30 6 ∧
    get_rate_limit_turnaround demoRL 0 30 6 ≤ 60 :=
  turnaround_floor_and_range 0 30 (by decide) (by decide)

/-! ## C5: periodic rate-limit reset -/

/-- Field-level characterization of one client reset. -/
theorem reset_client_char (cfg : RateLimitConfig) (cl : ClientRL) :
    (reset_rate_limiting_client cfg cl).rate_limit = 0 ∧
    (reset_rate_limiting_client cfg cl).rate_limited =
      (cl.rate_limited && decide (cfg.count < cl.rate_limit)) := by
  unfold reset_rate_limiting_client
  rcases hrl : cl.rate_limited
  · simp [hrl]
  · by_cases hc : cl.rate_limit > cfg.count
    · simp [hrl, hc]
    · simp [hrl, hc]

/-- C5: on a housekeeping pass that is due (at least `interval` seconds
after the previous reset, `interval > 0`), `lastRateLimitCleaner`
becomes `now`, every client's accrued counter is reset to `0`, and a
set sticky `rate_limited` flag is cleared if and only if the accrued
counter does not exceed the configured count — otherwise it persists
into the next window. -/
theorem gc_rate_limit_tick_resets (cfg : RateLimitConfig) (now last : Int)
    (clients : List ClientRL)
    (hdue : rate_limit_reset_due cfg now last = true) :
    (gc_rate_limit_tick cfg now last clients).1 = now ∧
    ∀ i cl, clients.get? i = some cl →
      ∃ cl2, (gc_rate_limit_tick cfg now last clients).2.get? i = some cl2 ∧
        cl2.rate_limit = 0 ∧
        cl2.rate_limited = (cl.rate_limited && decide (cfg.count < cl.rate_limit)) ∧
        (cl.rate_limited = true →
          (cl2.rate_limited = false ↔ cl.rate_limit ≤ cfg.count)) := by
  unfold gc_rate_limit_tick
  rw [if_pos hdue]
  refine ⟨rfl, fun i cl hget => ?_⟩
  obtain ⟨h0, hflag⟩ := reset_client_char cfg cl
  refine ⟨reset_rate_limiting_client cfg cl, ?_, h0, hflag, ?_⟩
  · unfold reset_rate_limiting
    rw [List.get?_map, hget]
    rfl
  · intro hrl
    rw [hflag, hrl]
    constructor
    · intro hfalse
      simp at hfalse
      omega
    · intro hle
      have : ¬(cfg.count < cl.rate_limit) := by omega
      simp [this]

/-- Witness for C5 at a due pass over three concrete clients. -/
theorem gc_rate_limit_tick_resets_witness :
    (gc_rate_limit_tick demoRL 100 0 demoClients).1 = 100 ∧
    ∀ i cl, demoClients.get? i = some cl →
      ∃ cl2, (gc_rate_limit_tick demoRL 100 0 demoClients).2.get? i = some cl2 ∧
        cl2.rate_limit = 0 ∧
        cl2.rate_limited = (cl.rate_limited && decide (demoRL.count < cl.rate_limit)) ∧
        (cl.rate_limited = true →
          (cl2.rate_limited = false ↔ cl.rate_limit ≤ demoRL.count)) :=
  gc_rate_limit_tick_resets demoRL 100 0 demoClients (by decide)

/-! ## C6: runGC eviction and compaction -/

/-- C6: evaluation of `runGC` at a two-query state shows the
compaction bug: the `memmove` copies from `getQuery(removed - 1)`, so
the surviving window keeps the last evicted (stale) query and drops
the newest one.  After the run, a live query with
`timestamp <= mintime` remains, while `gcNewQuery` — the only query
newer than `mintime` — is gone; a second state with a lone
`UNKNOWN`-status query additionally shows that evicting it leaves
`counters.status[UNKNOWN]` undecremented. -/
theorem runGC_keeps_stale_query :
    gc_mintime demoGCConfig 100000 = 13200 ∧
    (runGC demoGCConfig gcDemoState 100000 false).queries =
      [{ gcOldQuery with status := QStatus.unknown }] ∧
    (∃ q ∈ (runGC demoGCConfig gcDemoState 100000 false).queries,
      q.timestamp ≤ gc_mintime demoGCConfig 100000) ∧
    gcNewQuery ∉ (runGC demoGCConfig gcDemoState 100000 false).queries ∧
    gc_mintime demoGCConfig 100000 < gcNewQuery.timestamp ∧
    (runGC demoGCConfig gcDemoState 100000 false).countersQueries = 1 ∧
    (runGC demoGCConfig gcUnknownState 100000 false).queries = [] ∧
    (runGC demoGCConfig gcUnknownState 100000 false).countersQueries = 0 ∧
    (runGC demoGCConfig gcUnknownState 100000 false).statusCount QStatus.unknown =
      gcUnknownState.statusCount QStatus.unknown := by
  decide

/-! ## Row-loop lemmas for api_queries -/

/-- Every branch of `row_step` counts the record. -/
theorem row_step_records (cursor start : Nat) (length : Int)
    (st : RowLoop) (id : Nat) :
    (row_step cursor start length st id).records = st.records + 1 := by
  simp only [row_step]
  split
  · rfl
  · split
    · rfl
    · split <;> rfl

/-- Every branch of `row_step` latches `firstID` on the first record. -/
theorem row_step_firstID (cursor start : Nat) (length : Int)
    (st : RowLoop) (id : Nat) :
    (row_step cursor start length st id).firstID =
      if st.firstID = -1 then (id : Int) else st.firstID := by
  simp only [row_step]
  split
  · rfl
  · split
    · rfl
    · split <;> rfl

/-- `row_step` only ever appends to the output. -/
theorem row_step_out_append (cursor start : Nat) (length : Int)
    (st : RowLoop) (id : Nat) :
    ∃ t, (row_step cursor start length st id).out = st.out ++ t := by
  simp only [row_step]
  split
  · exact ⟨[], by simp⟩
  · split
    · exact ⟨[], by simp⟩
    · split
      · exact ⟨[], by simp⟩
      · exact ⟨[id], rfl⟩

/-- The row loop only ever appends to the output it starts from. -/
theorem run_rows_out_mono (cursor start : Nat) (length : Int)
    (rows : List Nat) :
    ∀ st : RowLoop, ∃ t,
      (rows.foldl (row_step cursor start length) st).out = st.out ++ t := by
  induction rows with
  | nil => intro st; exact ⟨[], by simp⟩
  | cons id rest ih =>
    intro st
    rw [List.foldl_cons]
    obtain ⟨t1, ht1⟩ := row_step_out_append cursor start length st id
    obtain ⟨t2, ht2⟩ := ih (row_step cursor start length st id)
    exact ⟨t1 ++ t2, by rw [ht2, ht1, List.append_assoc]⟩

/-- Once latched, `firstID` survives the rest of the loop. -/
theorem run_rows_firstID_frozen (cursor start : Nat) (length : Int)
    (rows : List Nat) :
    ∀ st : RowLoop, st.firstID ≠ -1 →
      (rows.foldl (row_step cursor start length) st).firstID = st.firstID := by
  induction rows with
  | nil => intro st _; rfl
  | cons id rest ih =>
    intro st hne
    rw [List.foldl_cons]
    rw [ih (row_step cursor start length st id)
        (by rw [row_step_firstID, if_neg hne]; exact hne)]
    rw [row_step_firstID, if_neg hne]

/-- Starting from an unlatched accumulator, `firstID` ends up being the
first row of the list (or stays `-1` on an empty list). -/
theorem run_rows_firstID (cursor start : Nat) (length : Int)
    (rows : List Nat) (st : RowLoop) (h : st.firstID = -1) :
    (rows.foldl (row_step cursor start length) st).firstID =
      ((rows.head?.map fun n => (n : Int)).getD (-1)) := by
  cases rows with
  | nil => simpa using h
  | cons id rest =>
    rw [List.foldl_cons]
    rw [run_rows_firstID_frozen cursor start length rest
        (row_step cursor start length st id)
        (by rw [row_step_firstID, if_pos h]; omega)]
    rw [row_step_firstID, if_pos h]
    rfl

/-- Unfolding `emitted_from` on a cons cell. -/
theorem emitted_from_cons (cursor start k0 id : Nat) (rest : List Nat) :
    emitted_from cursor start k0 (id :: rest) =
      (if id ≤ cursor ∧ start ≤ k0 then [id] else []) ++
        emitted_from cursor start (k0 + 1) rest := rfl

/-- With a non-positive `length`, the third skip never fires and the
loop emits exactly the rows that pass the cursor and start filters. -/
theorem run_rows_out_all (cursor start : Nat) (length : Int)
    (hlen : length ≤ 0) (rows : List Nat) :
    ∀ st : RowLoop,
      (rows.foldl (row_step cursor start length) st).out =
        st.out ++ emitted_from cursor start st.records rows := by
  induction rows with
  | nil => intro st; simp [emitted_from]
  | cons id rest ih =>
    intro st
    rw [List.foldl_cons, ih (row_step cursor start length st id),
        row_step_records, emitted_from_cons]
    by_cases h1 : id > cursor
    · have hout : (row_step cursor start length st id).out = st.out := by
        simp only [row_step]
        rw [if_pos h1]
      rw [hout, if_neg (by omega)]
      simp
    · by_cases h2 : 0 < start ∧ st.records + 1 ≤ start
      · have hout : (row_step cursor start length st id).out = st.out := by
          simp only [row_step]
          rw [if_neg h1, if_pos h2]
        rw [hout, if_neg (by omega)]
        simp
      · have hout : (row_step cursor start length st id).out = st.out ++ [id] := by
          simp only [row_step]
          rw [if_neg h1, if_neg h2, if_neg (by omega)]
        rw [hout, if_pos (by omega), List.append_assoc]

/-- With `start = 0`, the first row with an id within the cursor is
emitted first. -/
theorem run_rows_head_emitted (cursor : Nat) (length : Int) (id : Nat)
    (rest : List Nat) (hid : id ≤ cursor) :
    ∃ t, (run_rows cursor 0 length (id :: rest)).out = id :: t := by
  unfold run_rows
  rw [List.foldl_cons]
  have hout : (row_step cursor 0 length initRowLoop id).out = [id] := by
    simp only [row_step, initRowLoop]
    rw [if_neg (by omega), if_neg (by omega), if_neg (by push_cast; omega)]
    simp
  obtain ⟨t, ht⟩ :=
    run_rows_out_mono cursor 0 length rest (row_step cursor 0 length initRowLoop id)
  rw [ht, hout]
  exact ⟨t, rfl⟩

/-! ## C7: cursor validation -/

/-- C7: a request cursor is accepted and used whenever it is at most
`largest_db_index` (equality included, in which case the result equals
the default most-recent view), and a cursor beyond `largest_db_index`
is answered with HTTP 400 and no rows. -/
theorem api_queries_cursor_validation (largest recordsTotal : Nat)
    (req : QueriesRequest) (rows : List Nat) (u : Nat)
    (hcur : req.cursor = some u) :
    (u ≤ largest →
      api_queries largest recordsTotal req rows =
        QueriesResult.ok (run_rows u req.start req.length rows).out (u : Int)
          recordsTotal (run_rows u req.start req.length rows).records req.draw) ∧
    (u = largest →
      (api_queries largest recordsTotal req rows).rows =
        (api_queries largest recordsTotal { req with cursor := none } rows).rows) ∧
    (largest < u →
      api_queries largest recordsTotal req rows = QueriesResult.badRequest ∧
      (api_queries largest recordsTotal req rows).rows = []) := by
  refine ⟨fun hle => ?_, fun heq => ?_, fun hgt => ?_⟩
  · simp only [api_queries, hcur]
    rw [if_pos hle]
  · subst heq
    simp only [api_queries, hcur]
    rw [if_pos (le_refl u)]
    rfl
  · simp only [api_queries, hcur]
    rw [if_neg (by omega)]
    exact ⟨rfl, rfl⟩

/-- Witness for C7 at `largest_db_index = 10` with rows `[10, 9]`. -/
theorem api_queries_cursor_validation_witness :
    (10 ≤ 10 →
      api_queries 10 2 ⟨some 10, 0, -1, 3⟩ [10, 9] =
        QueriesResult.ok (run_rows 10 0 (-1) [10, 9]).out ((10 : Nat) : Int)
          2 (run_rows 10 0 (-1) [10, 9]).records 3) ∧
    ((10 : Nat) = 10 →
      (api_queries 10 2 ⟨some 10, 0, -1, 3⟩ [10, 9]).rows =
        (api_queries 10 2 { (⟨some 10, 0, -1, 3⟩ : QueriesRequest) with
          cursor := none } [10, 9]).rows) ∧
    (10 < 10 →
      api_queries 10 2 ⟨some 10, 0, -1, 3⟩ [10, 9] = QueriesResult.badRequest ∧
      (api_queries 10 2 ⟨some 10, 0, -1, 3⟩ [10, 9]).rows = []) :=
  api_queries_cursor_validation 10 2 ⟨some 10, 0, -1, 3⟩ [10, 9] 10 rfl

/-! ## C8: length semantics -/

/-- Counterexample for C8 as stated: with `length = 0` the skip
condition `length > 0 && added >= length` never fires, so the row is
emitted rather than suppressed. -/
theorem api_queries_length_zero_cex :
    (api_queries 10 1 lenZeroReq [5]).rows = [5] ∧
    ¬((api_queries 10 1 lenZeroReq [5]).rows = []) := by
  decide

/-- C8 (amended): for every non-positive `length` — `-1` and `0`
alike — `api_queries` emits every row passing the cursor and start
filters, and the `draw` parameter is echoed in the response. -/
theorem api_queries_stream_all (largest recordsTotal : Nat)
    (req : QueriesRequest) (rows : List Nat)
    (hcur : req.cursor = none) (hlen : req.length ≤ 0) :
    (api_queries largest recordsTotal req rows).rows =
      emitted_from largest req.start 0 rows ∧
    (api_queries largest recordsTotal req rows).drawField = req.draw := by
  simp only [api_queries, hcur]
  constructor
  · show (run_rows largest req.start req.length rows).out = _
    unfold run_rows
    rw [run_rows_out_all largest req.start req.length hlen rows initRowLoop]
    simp [initRowLoop]
  · rfl

/-- Witness for C8 with `length = 0` and rows `[5, 11, 3]`. -/
theorem api_queries_stream_all_witness :
    (api_queries 10 1 lenZeroReq [5, 11, 3]).rows =
      emitted_from 10 lenZeroReq.start 0 [5, 11, 3] ∧
    (api_queries 10 1 lenZeroReq [5, 11, 3]).drawField = lenZeroReq.draw :=
  api_queries_stream_all 10 1 lenZeroReq [5, 11, 3] rfl (by decide)

/-! ## C9: the response cursor -/

/-- Counterexample for C9 as stated: with no request cursor and
`start = 1`, the first emitted row is `9` but the response cursor is
`10`, the id of the first row merely scanned. -/
theorem api_queries_cursor_field_cex :
    (api_queries 10 2 startOneReq [10, 9]).rows = [9] ∧
    (api_queries 10 2 startOneReq [10, 9]).cursorField = 10 ∧
    ¬((api_queries 10 2 startOneReq [10, 9]).cursorField = (9 : Int)) := by
  decide

/-- C9 (amended): the response cursor equals the request cursor when
one was supplied and valid; otherwise it equals the id of the first row
scanned from the database (the most recent matching row; `-1` when no
row matches), which coincides with the first emitted row when
`start = 0`. -/
theorem api_queries_cursor_field (largest recordsTotal : Nat)
    (req : QueriesRequest) (rows : List Nat) :
    (∀ u, req.cursor = some u → u ≤ largest →
      (api_queries largest recordsTotal req rows).cursorField = (u : Int)) ∧
    (req.cursor = none →
      (api_queries largest recordsTotal req rows).cursorField =
        ((rows.head?.map fun n => (n : Int)).getD (-1))) ∧
    (req.cursor = none → req.start = 0 →
      ∀ id rest, rows = id :: rest → id ≤ largest →
        ∃ t, (api_queries largest recordsTotal req rows).rows = id :: t ∧
          (api_queries largest recordsTotal req rows).cursorField = (id : Int)) := by
  refine ⟨fun u hcur hle => ?_, fun hcur => ?_, fun hcur hstart id rest hrows hle => ?_⟩
  · simp only [api_queries, hcur]
    rw [if_pos hle]
    rfl
  · simp only [api_queries, hcur]
    show (run_rows largest req.start req.length rows).firstID = _
    unfold run_rows
    exact run_rows_firstID largest req.start req.length rows initRowLoop rfl
  · subst hrows
    simp only [api_queries, hcur]
    obtain ⟨t, ht⟩ := run_rows_head_emitted largest req.length id rest hle
    rw [← hstart] at ht
    refine ⟨t, ht, ?_⟩
    show (run_rows largest req.start req.length (id :: rest)).firstID = _
    unfold run_rows
    rw [run_rows_firstID largest req.start req.length (id :: rest) initRowLoop rfl]
    rfl

/-- Witness for C9 with no request cursor and `start = 0`. -/
theorem api_queries_cursor_field_witness :
    (∀ u, (⟨none, 0, 100, 2⟩ : QueriesRequest).cursor = some u → u ≤ 10 →
      (api_queries 10 2 ⟨none, 0, 100, 2⟩ [10, 9]).cursorField = (u : Int)) ∧
    ((⟨none, 0, 100, 2⟩ : QueriesRequest).cursor = none →
      (api_queries 10 2 ⟨none, 0, 100, 2⟩ [10, 9]).cursorField =
        (([10, 9].head?.map fun n => (n : Int)).getD (-1))) ∧
    ((⟨none, 0, 100, 2⟩ : QueriesRequest).cursor = none →
      (⟨none, 0, 100, 2⟩ : QueriesRequest).start = 0 →
      ∀ id rest, [10, 9] = id :: rest → id ≤ 10 →
        ∃ t, (api_queries 10 2 ⟨none, 0, 100, 2⟩ [10, 9]).rows = id :: t ∧
          (api_queries 10 2 ⟨none, 0, 100, 2⟩ [10, 9]).cursorField = (id : Int)) :=
  api_queries_cursor_field 10 2 ⟨none, 0, 100, 2⟩ [10, 9]

/-! ## C10: the login path logs the plaintext password -/

/-- C10: every login attempt reaching password verification first
writes `Password: "<password>"` to the log at info level, before
`verify_login` is consulted; consequently the log output distinguishes
any two different supplied passwords, whatever the verification
outcome — in particular for failed attempts. -/
theorem api_auth_logs_password (empty_password : Bool)
    (verify_login : String → PasswordResult) (p1 p2 : String) (hne : p1 ≠ p2) :
    (api_auth_verify empty_password verify_login p1).2.head? =
      some (LogEvent.info ("Password: \x22" ++ p1 ++ "\x22")) ∧
    (api_auth_verify empty_password verify_login p2).2.head? =
      some (LogEvent.info ("Password: \x22" ++ p2 ++ "\x22")) ∧
    (api_auth_verify empty_password verify_login p1).2 ≠
      (api_auth_verify empty_password verify_login p2).2 := by
  refine ⟨rfl, rfl, fun hcon => ?_⟩
  have h1 := congrArg List.head? hcon
  have h2 : some (LogEvent.info ("Password: \x22" ++ p1 ++ "\x22")) =
      some (LogEvent.info ("Password: \x22" ++ p2 ++ "\x22")) := h1
  have h3 := LogEvent.info.inj (Option.some.inj h2)
  have hd := congrArg String.data h3
  simp only [String.data_append] at hd
  exact hne (String.ext (List.append_cancel_left (List.append_cancel_right hd)))

/-- Witness for C10 with two concrete failing passwords. -/
theorem api_auth_logs_password_witness :
    (api_auth_verify false (fun _ => PasswordResult.incorrect) "hunter2").2.head? =
      some (LogEvent.info ("Password: \x22" ++ "hunter2" ++ "\x22")) ∧
    (api_auth_verify false (fun _ => PasswordResult.incorrect) "swordfish").2.head? =
      some (LogEvent.info ("Password: \x22" ++ "swordfish" ++ "\x22")) ∧
    (api_auth_verify false (fun _ => PasswordResult.incorrect) "hunter2").2 ≠
      (api_auth_verify false (fun _ => PasswordResult.incorrect) "swordfish").2 :=
  api_auth_logs_password false (fun _ => PasswordResult.incorrect)
    "hunter2" "swordfish" (by decide)
